import Mathlib

/-!
# Verification of the tempdash log-extraction-and-export pipeline

Shallow embedding of `src/dashboard-preload.js`:

* the CSV exporter (the `export-to-csv` IPC handler, lines 124–150),
* the log extractor `readDbFileAndQuery` (lines 54–89),
* the engine loader `initializeDbModule` (lines 22–46),

together with proofs of the spec's testable properties.  JavaScript runtime
values are embedded as `JsValue`; JavaScript objects (whose string keys keep
insertion order) are embedded as ordered association lists.  The filesystem
and the embedded sql.js query engine are external collaborators and are
embedded as explicit environment records supplying the outcome of each
external call.
-/

deriving instance DecidableEq for Except

namespace TempDash

/-- A JavaScript runtime value as it occurs in the pipeline: `null`,
`undefined`, a string, an integral number (rendered in decimal by JS
`toString`), or a non-integral number carried by its JS decimal rendering
(floating point is not reproduced; only the rendered text matters to the
pipeline, and a JS number rendering never contains a comma or quote). -/
inductive JsValue where
  | null
  | undefined
  | str (s : String)
  | int (i : Int)
  | numLit (render : String)
deriving DecidableEq

/-- A log record as built by `readDbFileAndQuery`: a JavaScript object,
embedded as an ordered association list (JS objects preserve insertion
order for non-index string keys, which all keys here are). -/
abbrev LogRecord := List (String × JsValue)

/-- JS property read `obj[key]`: the value at `key`, or `undefined` when the
key is absent. -/
def getField (obj : LogRecord) (key : String) : JsValue :=
  match obj.find? (fun p => p.1 = key) with
  | some p => p.2
  | none => .undefined

/-- JS property write `obj[key] = v` on an object embedded as an ordered
association list: overwrite in place when the key exists, else append. -/
def objInsert (obj : LogRecord) (key : String) (v : JsValue) : LogRecord :=
  if obj.any (fun p => p.1 = key) then
    obj.map (fun p => if p.1 = key then (key, v) else p)
  else
    obj ++ [(key, v)]

/-- `columns.forEach((col, index) => entry[col] = row[index])` from
src/dashboard-preload.js lines 74–78: build one record by zipping a result
row against the column-name list (`row[index]` past the end is
`undefined`). -/
def buildEntry (columns : List String) (row : List JsValue) : LogRecord :=
  columns.enum.foldl (fun obj p => objInsert obj p.2 (row.getD p.1 .undefined)) []

/-! ## CSV exporter (`export-to-csv` handler, lines 124–150) -/

/-- JS `String.prototype.toUpperCase`, embedded over the character list
(all keys in play are ASCII, where `Char.toUpper` agrees with JS). -/
def jsToUpperCase (s : String) : String :=
  String.mk (s.data.map Char.toUpper)

/-- JS `String.prototype.includes` with a one-character needle, embedded
over the character list. -/
def jsIncludes (s : String) (c : Char) : Bool :=
  s.data.any (fun a => a = c)

/-- JS `value.replace(/"/g, '""')` (line 145): every double-quote character
is replaced by two, embedded over the character list. -/
def jsEscapeQuotes (s : String) : String :=
  String.mk (s.data.flatMap (fun c => if c = '\"' then ['\"', '\"'] else [c]))

/-- Header relabeling from lines 131–136: `sensor_name`, `temperature` and
`timestamp` get human-readable labels; any other key is uppercased. -/
def relabelHeader (h : String) : String :=
  if h = "sensor_name" then "Sensor Name"
  else if h = "temperature" then "Temperature (C)"
  else if h = "timestamp" then "Time Stamp"
  else jsToUpperCase h

/-- Field rendering from lines 141–147: `null`/`undefined` render as the
empty string; a string containing a comma is wrapped in double quotes with
embedded double quotes doubled; every other value is rendered verbatim
(numbers by their JS decimal rendering, via the implicit `toString` in
`Array.prototype.join`). -/
def renderField (v : JsValue) : String :=
  match v with
  | .null => ""
  | .undefined => ""
  | .str s =>
      if jsIncludes s ',' then "\"" ++ jsEscapeQuotes s ++ "\"" else s
  | .int i => toString i
  | .numLit r => r

/-- The pure core of the `export-to-csv` handler (lines 124–150): `none`
models an absent (`null`/`undefined`) argument.  On non-empty input it
produces the CSV document `csvContent`; the subsequent save dialog and file
write are boundary plumbing outside the core.  The error string is the
handler's `message` for the no-data case (line 126). -/
def exportCsv (data : Option (List LogRecord)) : Except String String :=
  match data with
  | none => .error "No data provided for export."
  | some records =>
    if records.length = 0 then .error "No data provided for export."
    else
      match records with
      | [] => .error "No data provided for export."
      | first :: _ =>
        let headers := first.map (fun p => p.1)
        let csvHeaders := String.intercalate "," (headers.map relabelHeader)
        let csvRows := records.map (fun row =>
          String.intercalate "," (headers.map (fun h => renderField (getField row h))))
        .ok (String.intercalate "\n" (csvHeaders :: csvRows))

/-! ## Log extractor (`readDbFileAndQuery`, lines 54–89) -/

/-- One result set as returned by the query engine's `db.exec`: a column
name list and the value rows. -/
structure QueryResult where
  columns : List String
  values : List (List JsValue)
deriving DecidableEq

/-- The external collaborators of one `readDbFileAndQuery` call: the
filesystem read at the given path (`fs.readFileSync`, line 59), the
database construction from the file bytes (`new dbModule.Database`,
line 60), and the `db.exec` call on the scoped instance (line 63).  Each
field supplies the outcome (`.error msg` = the JS call threw with message
`msg`). -/
structure ExtractEnv where
  readFile : String → Except String (List Nat)
  openDb : List Nat → Except String Unit
  execQuery : Except String (List QueryResult)

/-- The JS error message prefix of line 85. -/
def processFailMsg (msg : String) : String :=
  "Failed to process database file: " ++ msg

/-- `readDbFileAndQuery` (lines 54–89).  Returns the thrown-or-returned
outcome paired with the number of `db.close()` calls performed by the
`finally` block (line 87: `if (db) db.close()` — the close runs exactly
when the scoped instance was successfully constructed).  `initialized`
models whether `dbModule` is set (line 55); any error thrown inside the
`try` block is re-thrown wrapped by `processFailMsg` (line 85). -/
def readDbFileAndQuery (initialized : Bool) (env : ExtractEnv) (filePath : String) :
    Except String (List LogRecord) × Nat :=
  if !initialized then (.error "SQL.js library not initialized.", 0)
  else
    match env.readFile filePath with
    | .error msg => (.error (processFailMsg msg), 0)
    | .ok filebuffer =>
      match env.openDb filebuffer with
      | .error msg => (.error (processFailMsg msg), 0)
      | .ok _ =>
        match env.execQuery with
        | .error msg => (.error (processFailMsg msg), 1)
        | .ok result =>
          match result with
          | [] => (.ok [], 1)
          | q :: _ =>
            if q.values.length = 0 then (.ok [], 1)
            else (.ok (q.values.map (fun row => buildEntry q.columns row)), 1)

/-! ### The fixed query's semantics

The one query the system issues (line 63) is
`SELECT sl, sensor_name, status, temperature, timestamp FROM temp_logs
ORDER BY sl DESC`, executed by the external sql.js engine.  The engine is
a third-party dependency, so its behaviour on a valid database is modelled:
a `temp_logs` table is a list of typed rows, and the query returns the five
selected columns with the rows sorted by `sl` descending. -/

/-- A row of a valid `temp_logs` table: `sl` is the integer serial key; the
other four columns hold arbitrary stored values. -/
structure TempLogRow where
  sl : Int
  sensor_name : JsValue
  status : JsValue
  temperature : JsValue
  timestamp : JsValue
deriving DecidableEq

/-- The column-name list the engine returns for the fixed query. -/
def queryColumns : List String :=
  ["sl", "sensor_name", "status", "temperature", "timestamp"]

/-- The value row the engine returns for one table row, in the selected
column order. -/
def rowValues (r : TempLogRow) : List JsValue :=
  [.int r.sl, r.sensor_name, r.status, r.temperature, r.timestamp]

/-- `ORDER BY sl DESC` ordering: `a` may precede `b` iff `b.sl ≤ a.sl`. -/
def slGE (a b : TempLogRow) : Prop := b.sl ≤ a.sl

instance : DecidableRel slGE := fun a b => by unfold slGE; infer_instance

instance : IsTotal TempLogRow slGE :=
  ⟨fun a b => le_total b.sl a.sl⟩

instance : IsTrans TempLogRow slGE :=
  ⟨fun _ _ _ hab hbc => le_trans hbc hab⟩

/-- Modelled from the spec: the external query engine's execution of the
fixed query — `ORDER BY sl DESC` returns the table's rows sorted by `sl`
descending (realised here by a sort with respect to `slGE`). -/
def sortBySlDesc (t : List TempLogRow) : List TempLogRow :=
  t.insertionSort slGE

/-- Modelled from the spec: the single result set `db.exec` yields for the
fixed query on a valid database whose `temp_logs` table holds rows `t`. -/
def tempLogsQueryResult (t : List TempLogRow) : QueryResult :=
  ⟨queryColumns, (sortBySlDesc t).map rowValues⟩

/-- The environment of a call on a readable, valid database file whose
`temp_logs` table holds rows `t`: the read, the open and the query all
succeed, and the query returns the fixed query's result set. -/
def validDbEnv (t : List TempLogRow) : ExtractEnv where
  readFile := fun _ => .ok []
  openDb := fun _ => .ok ()
  execQuery := .ok [tempLogsQueryResult t]

/-! ## Engine loader (`initializeDbModule`, lines 22–46) -/

/-- The initialized sql.js module handle (line 19, `dbModule`); only its
presence and identity matter to the loader's state. -/
abbrev SqlJsModule := Nat

/-- Node's `path.join` on the segments used here (no `..`/trailing-slash
normalisation is exercised). -/
def pathJoin (parts : List String) : String :=
  String.intercalate "/" parts

/-- The external collaborators of `initializeDbModule`: the build-mode flag
(line 27), the two path roots, `fs.existsSync`/`fs.readFileSync` (lines
34–35) and the two ways of invoking `initSqlJs` (lines 36 and 39), each
supplying its outcome. -/
structure InitEnv where
  devMode : Bool
  dirname : String
  resourcesPath : String
  wasmExists : String → Bool
  readWasm : String → Except String (List Nat)
  initSqlJsWith : List Nat → Except String SqlJsModule
  initSqlJsDefault : Except String SqlJsModule

/-- `WASM_PATH` resolution (lines 27–31): a development-tree path or a
packaged-resource path, selected by the build-mode flag. -/
def wasmPath (env : InitEnv) : String :=
  if env.devMode then
    pathJoin [env.dirname, "node_modules", "sql.js", "dist", "sql-wasm.wasm"]
  else
    pathJoin [env.resourcesPath, "sql-wasm.wasm"]

/-- One call of `initializeDbModule` (lines 22–46) as a transition on the
`dbModule` state cell: returns the new state, the call's outcome (`.error`
= the initialization threw and the error was re-thrown, line 44), and the
number of real `initSqlJs` invocations the call performed. -/
def initializeDbModule (dbModule : Option SqlJsModule) (env : InitEnv) :
    Option SqlJsModule × Except String Unit × Nat :=
  match dbModule with
  | some m => (some m, .ok (), 0)
  | none =>
    if env.wasmExists (wasmPath env) then
      match env.readWasm (wasmPath env) with
      | .error e => (none, .error e, 0)
      | .ok wasmBinary =>
        match env.initSqlJsWith wasmBinary with
        | .ok m => (some m, .ok (), 1)
        | .error e => (none, .error e, 1)
    else
      match env.initSqlJsDefault with
      | .ok m => (some m, .ok (), 1)
      | .error e => (none, .error e, 1)

/-! ### Interleaved calls to the engine loader

`initializeDbModule` is an `async` function: each call runs synchronously
from the `if (dbModule) return` check (line 23) through the invocation of
`initSqlJs` (line 36 or 39), suspends at the `await`, and on resumption
assigns `dbModule` and returns.  Under the JS event loop a call is thus two
atomic steps: the check-and-start prefix and the assign-and-return
continuation.  The model below runs several callers under an explicit
interleaving schedule and counts real `initSqlJs` invocations. -/

/-- Where one caller of `initializeDbModule` stands: not yet run, suspended
at the `await` with its own initialization in flight, or returned. -/
inductive CallerPc where
  | start
  | waiting
  | done
deriving DecidableEq

/-- Shared state of the interleaved callers: whether `dbModule` has been
assigned, each caller's position, and how many real `initSqlJs`
invocations have been performed. -/
structure ConcState where
  dbModuleSet : Bool
  pcs : List CallerPc
  realInits : Nat
deriving DecidableEq

/-- One scheduler step running caller `i`: at `start` the caller runs the
synchronous prefix — it returns at once when `dbModule` is already set
(line 23), else it invokes `initSqlJs` (a real initialization) and suspends
at the `await`; at `waiting` it resumes, assigns `dbModule` (line 36/39)
and returns.  A step on a finished or unknown caller does nothing. -/
def concStep (s : ConcState) (i : Nat) : ConcState :=
  match s.pcs.get? i with
  | some .start =>
      if s.dbModuleSet then
        { s with pcs := s.pcs.set i .done }
      else
        { s with pcs := s.pcs.set i .waiting, realInits := s.realInits + 1 }
  | some .waiting =>
      { s with dbModuleSet := true, pcs := s.pcs.set i .done }
  | _ => s

/-- Run a schedule (a sequence of caller indices) from a state. -/
def runSchedule (s : ConcState) (sched : List Nat) : ConcState :=
  sched.foldl concStep s

/-- `n` callers, none yet run, `dbModule` unset. -/
def initConcState (n : Nat) : ConcState :=
  ⟨false, List.replicate n .start, 0⟩

/-! ## Concrete fixtures used by witnesses and counterexamples -/

/-- The spec's round-trip example record. -/
def exampleRecord : LogRecord :=
  [("sl", .int 1), ("sensor_name", .str "A,B"), ("status", .str "OK"),
   ("temperature", .numLit "21.5"), ("timestamp", .str "2024-01-01T00:00:00Z")]

/-- A first record with keys `a`, `b`. -/
def mixedFirst : LogRecord := [("a", .int 1), ("b", .int 2)]

/-- A second record with key `b` missing and an extra key `c`. -/
def mixedSecond : LogRecord := [("a", .int 3), ("c", .int 4)]

/-- Extraction environment where the file read itself throws with `msg`
(missing file or permission) and everything later would succeed. -/
def readFailEnv (msg : String) : ExtractEnv where
  readFile := fun _ => .error msg
  openDb := fun _ => .ok ()
  execQuery := .ok []

/-- Extraction environment where the read succeeds but the file content is
not a valid database: `new dbModule.Database` throws with `msg`. -/
def openFailEnv (msg : String) : ExtractEnv where
  readFile := fun _ => .ok []
  openDb := fun _ => .error msg
  execQuery := .ok []

/-- Extraction environment where open succeeds but the query throws with
`msg` (e.g. a valid database with no `temp_logs` table). -/
def queryFailEnv (msg : String) : ExtractEnv where
  readFile := fun _ => .ok []
  openDb := fun _ => .ok ()
  execQuery := .error msg

/-- The record list `readDbFileAndQuery` produces on a valid table `t`. -/
def extractedRecords (t : List TempLogRow) : List LogRecord :=
  (sortBySlDesc t).map (fun r => buildEntry queryColumns (rowValues r))

/-- A two-row table fixture with distinct serials. -/
def sampleTable : List TempLogRow :=
  [⟨1, .str "alpha", .str "OK", .numLit "20.5", .str "t1"⟩,
   ⟨2, .str "beta", .str "HIGH", .numLit "30.5", .str "t2"⟩]

/-- Loader environment where the wasm file is absent and the default
initialization strategy throws. -/
def failingInitEnv : InitEnv where
  devMode := false
  dirname := "/app"
  resourcesPath := "/app/resources"
  wasmExists := fun _ => false
  readWasm := fun _ => .error "ENOENT"
  initSqlJsWith := fun _ => .ok 7
  initSqlJsDefault := .error "wasm abort"

/-- Loader environment where the wasm file exists and initialization from
its bytes succeeds. -/
def workingInitEnv : InitEnv where
  devMode := true
  dirname := "/app"
  resourcesPath := "/app/resources"
  wasmExists := fun _ => true
  readWasm := fun _ => .ok [0]
  initSqlJsWith := fun _ => .ok 7
  initSqlJsDefault := .ok 7

/-! ## Helper lemmas -/

theorem exportCsv_cons (first : LogRecord) (rest : List LogRecord) :
    exportCsv (some (first :: rest)) =
      .ok (String.intercalate "\n"
        (String.intercalate "," ((first.map (fun p => p.1)).map relabelHeader) ::
          (first :: rest).map (fun row =>
            String.intercalate ","
              ((first.map (fun p => p.1)).map (fun h => renderField (getField row h)))))) := by
  simp [exportCsv]

theorem sortBySlDesc_perm (t : List TempLogRow) : List.Perm (sortBySlDesc t) t :=
  List.perm_insertionSort slGE t

theorem sortBySlDesc_length (t : List TempLogRow) : (sortBySlDesc t).length = t.length :=
  (sortBySlDesc_perm t).length_eq

theorem sortBySlDesc_sorted (t : List TempLogRow) :
    (sortBySlDesc t).Pairwise slGE :=
  List.sorted_insertionSort slGE t

theorem sortBySlDesc_chain_lt (t : List TempLogRow)
    (hnd : (t.map TempLogRow.sl).Nodup) :
    List.Chain' (fun a b => b.sl < a.sl) (sortBySlDesc t) := by
  have hp : List.Perm ((sortBySlDesc t).map TempLogRow.sl) (t.map TempLogRow.sl) :=
    (sortBySlDesc_perm t).map TempLogRow.sl
  have hnd' : ((sortBySlDesc t).map TempLogRow.sl).Nodup := hp.nodup_iff.mpr hnd
  have hpw : (sortBySlDesc t).Pairwise (fun a b => a.sl ≠ b.sl) :=
    List.pairwise_map.mp hnd'
  have hstrict : (sortBySlDesc t).Pairwise (fun a b => b.sl < a.sl) :=
    ((sortBySlDesc_sorted t).and hpw).imp
      (fun h => lt_of_le_of_ne h.1 (Ne.symm h.2))
  exact hstrict.chain'

theorem buildEntry_queryColumns (r : TempLogRow) :
    buildEntry queryColumns (rowValues r) =
      [("sl", .int r.sl), ("sensor_name", r.sensor_name), ("status", r.status),
       ("temperature", r.temperature), ("timestamp", r.timestamp)] := rfl

theorem readDbFileAndQuery_validDbEnv (t : List TempLogRow) (p : String)
    (hne : t ≠ []) :
    readDbFileAndQuery true (validDbEnv t) p = (.ok (extractedRecords t), 1) := by
  have hsne : ¬ sortBySlDesc t = [] := by
    intro h
    apply hne
    have hl := sortBySlDesc_length t
    rw [h] at hl
    exact List.length_eq_zero.mp hl.symm
  simp [readDbFileAndQuery, validDbEnv, tempLogsQueryResult, extractedRecords,
    hsne, List.map_map, Function.comp]

/-! ## Claim theorems -/

/-- C1: on every non-empty record sequence, `exportCsv` renders each record
as one line whose fields, in the header's key order, are: the empty string
for `null`/missing values; the value in double quotes with embedded double
quotes doubled for a text value containing a comma; and the value verbatim
otherwise — in particular a text value with a double quote but no comma is
emitted unquoted and unchanged. Fields join with commas, header and rows
join with newline, and every row keeps the header's column count. -/
theorem exportCsv_rendering_policy (first : LogRecord) (rest : List LogRecord) :
    exportCsv (some (first :: rest)) =
      .ok (String.intercalate "\n"
        (String.intercalate "," ((first.map (fun p => p.1)).map relabelHeader) ::
          (first :: rest).map (fun row =>
            String.intercalate ","
              ((first.map (fun p => p.1)).map (fun h => renderField (getField row h))))))
    ∧ renderField .null = ""
    ∧ renderField .undefined = ""
    ∧ (∀ s : String, jsIncludes s ',' = true →
        renderField (.str s) = "\"" ++ jsEscapeQuotes s ++ "\"")
    ∧ (∀ s : String, jsIncludes s ',' = false → renderField (.str s) = s)
    ∧ (∀ row : LogRecord, row ∈ first :: rest →
        ((first.map (fun p => p.1)).map (fun h => renderField (getField row h))).length
          = (first.map (fun p => p.1)).length) := by
  refine ⟨exportCsv_cons first rest, rfl, rfl, ?_, ?_, ?_⟩
  · intro s hs
    simp [renderField, hs]
  · intro s hs
    simp [renderField, hs]
  · intro row _
    simp

/-- Witness for C1: the comma-bearing value `A,B` is quoted and the
quote-bearing, comma-free value `He said "hi"` is emitted unchanged. -/
theorem exportCsv_rendering_policy_witness :
    renderField (.str "A,B") = "\"A,B\""
    ∧ renderField (.str "He said \"hi\"") = "He said \"hi\"" := by
  have h := exportCsv_rendering_policy exampleRecord []
  exact ⟨(h.2.2.2.1 "A,B" (by decide)).trans (by decide),
         h.2.2.2.2.1 "He said \"hi\"" (by decide)⟩

/-- C2: the header line comes from the first record's keys in order,
relabeled (`sensor_name` → `Sensor Name`, `temperature` →
`Temperature (C)`, `timestamp` → `Time Stamp`, anything else uppercased)
and joined with commas; for the five fixed keys this is exactly
`SL,Sensor Name,STATUS,Temperature (C),Time Stamp`, and the spec's example
record renders as `1,"A,B",OK,21.5,2024-01-01T00:00:00Z`. -/
theorem exportCsv_header_derivation :
    (∀ (first : LogRecord) (rest : List LogRecord),
      exportCsv (some (first :: rest)) =
        .ok (String.intercalate "\n"
          (String.intercalate "," ((first.map (fun p => p.1)).map relabelHeader) ::
            (first :: rest).map (fun row =>
              String.intercalate ","
                ((first.map (fun p => p.1)).map (fun h => renderField (getField row h)))))))
    ∧ relabelHeader "sensor_name" = "Sensor Name"
    ∧ relabelHeader "temperature" = "Temperature (C)"
    ∧ relabelHeader "timestamp" = "Time Stamp"
    ∧ (∀ k : String, ¬ k = "sensor_name" → ¬ k = "temperature" → ¬ k = "timestamp" →
        relabelHeader k = jsToUpperCase k)
    ∧ String.intercalate "," (queryColumns.map relabelHeader)
        = "SL,Sensor Name,STATUS,Temperature (C),Time Stamp"
    ∧ exportCsv (some [exampleRecord]) =
        .ok "SL,Sensor Name,STATUS,Temperature (C),Time Stamp\n1,\"A,B\",OK,21.5,2024-01-01T00:00:00Z" := by
  refine ⟨fun first rest => exportCsv_cons first rest,
    by decide, by decide, by decide, ?_, by decide, by decide⟩
  intro k h1 h2 h3
  simp [relabelHeader, h1, h2, h3]

/-- Witness for C2: the key `sl` gets the default uppercase relabeling. -/
theorem exportCsv_header_derivation_witness : relabelHeader "sl" = "SL" := by
  have h := exportCsv_header_derivation
  exact (h.2.2.2.2.1 "sl" (by decide) (by decide) (by decide)).trans (by decide)

/-- C10: every row is rendered over the first record's key list only — a
key absent from the first record is dropped, a first-record key missing
from a later record renders as the empty string, and every data line has
exactly as many fields as the header line. -/
theorem exportCsv_first_record_schema (first : LogRecord) (rest : List LogRecord) :
    exportCsv (some (first :: rest)) =
      .ok (String.intercalate "\n"
        (String.intercalate "," ((first.map (fun p => p.1)).map relabelHeader) ::
          (first :: rest).map (fun row =>
            String.intercalate ","
              ((first.map (fun p => p.1)).map (fun h => renderField (getField row h))))))
    ∧ (∀ (row : LogRecord) (k : String), row.find? (fun p => p.1 = k) = none →
        renderField (getField row k) = "")
    ∧ (∀ row : LogRecord, row ∈ first :: rest →
        ((first.map (fun p => p.1)).map (fun h => renderField (getField row h))).length
          = ((first.map (fun p => p.1)).map relabelHeader).length)
    ∧ exportCsv (some [mixedFirst, mixedSecond]) = .ok "A,B\n1,2\n3," := by
  refine ⟨exportCsv_cons first rest, ?_, ?_, by decide⟩
  · intro row k hf
    simp [getField, hf, renderField]
  · intro row _
    simp

/-- Witness for C10: the first-record key `b` is missing from the second
record and renders as the empty string. -/
theorem exportCsv_first_record_schema_witness :
    renderField (getField mixedSecond "b") = "" :=
  (exportCsv_first_record_schema mixedFirst [mixedSecond]).2.1 mixedSecond "b" (by decide)

/-- C6: `exportCsv` fails with the no-data error exactly when the record
sequence is absent or empty; every non-empty sequence yields a document. -/
theorem exportCsv_no_data (r : LogRecord) (rs : List LogRecord) :
    exportCsv none = .error "No data provided for export."
    ∧ exportCsv (some []) = .error "No data provided for export."
    ∧ ∃ doc, exportCsv (some (r :: rs)) = .ok doc :=
  ⟨rfl, rfl, _, exportCsv_cons r rs⟩

/-- Witness for C6: the example record exports to some document. -/
theorem exportCsv_no_data_witness :
    ∃ doc, exportCsv (some [exampleRecord]) = .ok doc :=
  (exportCsv_no_data exampleRecord []).2.2

/-- C3: on a valid database whose non-empty `temp_logs` table has distinct
serials, extraction returns one record per table row (length preserved),
the records' `sl` fields follow the query's strictly descending order, each
record is the zip of the engine's returned column list against its row, and
the zip uses whatever column list the engine returned, not a hardcoded
one. -/
theorem extractLog_valid_nonempty (t : List TempLogRow) (p : String)
    (hne : t ≠ []) (hnd : (t.map TempLogRow.sl).Nodup) :
    readDbFileAndQuery true (validDbEnv t) p = (.ok (extractedRecords t), 1)
    ∧ (extractedRecords t).length = t.length
    ∧ (extractedRecords t).map (fun e => getField e "sl")
        = (sortBySlDesc t).map (fun r => JsValue.int r.sl)
    ∧ List.Chain' (fun a b => b.sl < a.sl) (sortBySlDesc t)
    ∧ (∀ r : TempLogRow, buildEntry queryColumns (rowValues r) =
        [("sl", .int r.sl), ("sensor_name", r.sensor_name), ("status", r.status),
         ("temperature", r.temperature), ("timestamp", r.timestamp)])
    ∧ (∀ (env : ExtractEnv) (cols : List String) (rows : List (List JsValue)) (buf : List Nat),
        env.readFile p = .ok buf → env.openDb buf = .ok () →
        env.execQuery = .ok [⟨cols, rows⟩] → ¬ rows = [] →
        (readDbFileAndQuery true env p).1 = .ok (rows.map (fun row => buildEntry cols row))) := by
  refine ⟨readDbFileAndQuery_validDbEnv t p hne, ?_, ?_, sortBySlDesc_chain_lt t hnd,
    fun r => buildEntry_queryColumns r, ?_⟩
  · rw [extractedRecords, List.length_map, sortBySlDesc_length]
  · rw [extractedRecords, List.map_map]
    exact List.map_congr_left fun r _ => rfl
  · intro env cols rows buf h1 h2 h3 h4
    simp [readDbFileAndQuery, h1, h2, h3, List.length_eq_zero, h4]

/-- Witness for C3: extraction on the two-row fixture returns both rows,
most recent serial first. -/
theorem extractLog_valid_nonempty_witness :
    readDbFileAndQuery true (validDbEnv sampleTable) "log.db"
      = (.ok (extractedRecords sampleTable), 1)
    ∧ (extractedRecords sampleTable).length = 2
    ∧ (extractedRecords sampleTable).map (fun e => getField e "sl")
        = [.int 2, .int 1] := by
  have h := extractLog_valid_nonempty sampleTable "log.db" (by decide) (by decide)
  exact ⟨h.1, h.2.1.trans (by decide), h.2.2.1.trans (by decide)⟩

/-- C5: when the engine reports no result set, or a result set with zero
rows (a valid database whose `temp_logs` table is empty), extraction
returns the empty record list as a success, not an error. -/
theorem extractLog_empty_result (env : ExtractEnv) (p : String) (buf : List Nat)
    (hread : env.readFile p = .ok buf) (hopen : env.openDb buf = .ok ()) :
    (env.execQuery = .ok [] → readDbFileAndQuery true env p = (.ok [], 1))
    ∧ (∀ cols : List String, env.execQuery = .ok [⟨cols, []⟩] →
        readDbFileAndQuery true env p = (.ok [], 1))
    ∧ readDbFileAndQuery true (validDbEnv []) p = (.ok [], 1) := by
  refine ⟨?_, ?_, rfl⟩
  · intro hq
    simp [readDbFileAndQuery, hread, hopen, hq]
  · intro cols hq
    simp [readDbFileAndQuery, hread, hopen, hq]

/-- Witness for C5: extraction on a valid database with an empty
`temp_logs` table succeeds with the empty list. -/
theorem extractLog_empty_result_witness :
    readDbFileAndQuery true (validDbEnv []) "log.db" = (.ok [], 1) :=
  (extractLog_empty_result (validDbEnv []) "log.db" [] rfl rfl).2.1 queryColumns rfl

/-- C7: whenever the scoped database instance is constructed (the read and
the open succeed), it is closed exactly once — whatever the query outcome:
error, empty result, or rows. -/
theorem extraction_close_exactly_once (env : ExtractEnv) (p : String) (buf : List Nat)
    (hread : env.readFile p = .ok buf) (hopen : env.openDb buf = .ok ()) :
    (readDbFileAndQuery true env p).2 = 1
    ∧ (∀ msg : String, env.execQuery = .error msg →
        readDbFileAndQuery true env p = (.error (processFailMsg msg), 1)) := by
  constructor
  · simp only [readDbFileAndQuery, Bool.not_true, Bool.false_eq_true, if_false, hread, hopen]
    rcases env.execQuery with msg | result
    · rfl
    · rcases result with _ | ⟨q, qs⟩
      · rfl
      · by_cases h : q.values.length = 0 <;> simp [h]
  · intro msg hq
    simp [readDbFileAndQuery, hread, hopen, hq]

/-- Witness for C7: on a valid database missing the `temp_logs` table the
query throws, the error is propagated, and the instance is closed once. -/
theorem extraction_close_exactly_once_witness :
    readDbFileAndQuery true (queryFailEnv "no such table: temp_logs") "log.db"
      = (.error (processFailMsg "no such table: temp_logs"), 1) :=
  (extraction_close_exactly_once (queryFailEnv "no such table: temp_logs")
    "log.db" [] rfl rfl).2 "no such table: temp_logs" rfl

/-- C4 counterexample: a file-read failure is wrapped into exactly the same
single error as a malformed-database failure — the result of a failing read
equals, error for error, the result of a failing database construction, so
there is no distinct FileReadError kind, and the error carries only the
original message, not the path. -/
theorem extractLog_read_error_not_distinct :
    (readDbFileAndQuery true (readFailEnv "boom") "/data/missing.db").1
      = .error (processFailMsg "boom")
    ∧ (readDbFileAndQuery true (readFailEnv "boom") "/data/missing.db").1
      = (readDbFileAndQuery true (openFailEnv "boom") "/data/missing.db").1 :=
  ⟨rfl, rfl⟩

/-- C4 amended: a path whose content cannot be read makes extraction fail,
but with the same single wrapped error used for malformed content and
query failures (`Failed to process database file: <original message>`),
not a distinct error kind; and no instance is constructed or closed. -/
theorem extractLog_read_error_wrapped (env : ExtractEnv) (p msg : String)
    (h : env.readFile p = .error msg) :
    readDbFileAndQuery true env p = (.error (processFailMsg msg), 0) := by
  simp [readDbFileAndQuery, h]

/-- Witness for the amended C4: a missing file's read error is wrapped and
nothing is closed. -/
theorem extractLog_read_error_wrapped_witness :
    readDbFileAndQuery true (readFailEnv "ENOENT") "/data/missing.db"
      = (.error (processFailMsg "ENOENT"), 0) :=
  extractLog_read_error_wrapped (readFailEnv "ENOENT") "/data/missing.db" "ENOENT" rfl

/-- C8: a call after a successful initialization performs no real
initialization and succeeds; the state cell is never left set by a failing
call; a failing initialization surfaces its error (whether the wasm-bytes
or the default strategy was used); and from the unset state a later call
performs a real initialization again and can succeed. -/
theorem initializeDbModule_contract (env env2 : InitEnv) (m m2 : SqlJsModule) :
    initializeDbModule (some m) env = (some m, .ok (), 0)
    ∧ (∀ (st : Option SqlJsModule) (e : String) (cnt : Nat),
        initializeDbModule none env = (st, .error e, cnt) → st = none)
    ∧ (∀ e : String, env.wasmExists (wasmPath env) = false →
        env.initSqlJsDefault = .error e →
        initializeDbModule none env = (none, .error e, 1))
    ∧ (∀ (bin : List Nat) (e : String), env.wasmExists (wasmPath env) = true →
        env.readWasm (wasmPath env) = .ok bin →
        env.initSqlJsWith bin = .error e →
        initializeDbModule none env = (none, .error e, 1))
    ∧ (∀ bin : List Nat, env2.wasmExists (wasmPath env2) = true →
        env2.readWasm (wasmPath env2) = .ok bin →
        env2.initSqlJsWith bin = .ok m2 →
        initializeDbModule none env2 = (some m2, .ok (), 1)) := by
  refine ⟨rfl, ?_, ?_, ?_, ?_⟩
  · intro st e cnt h
    cases hw : env.wasmExists (wasmPath env)
    · rcases hd : env.initSqlJsDefault with e' | m' <;>
        simp [initializeDbModule, hw, hd] at h
      simp_all
    · rcases hr : env.readWasm (wasmPath env) with e' | bin
      · simp [initializeDbModule, hw, hr] at h
        simp_all
      · rcases hi : env.initSqlJsWith bin with e' | m' <;>
          simp [initializeDbModule, hw, hr, hi] at h
        simp_all
  · intro e hw hd
    simp [initializeDbModule, hw, hd]
  · intro bin e hw hr hi
    simp [initializeDbModule, hw, hr, hi]
  · intro bin hw hr hi
    simp [initializeDbModule, hw, hr, hi]

/-- Witness for C8: with a failing default strategy the call errors and
retains nothing; after a success the module is cached; a fresh call against
a working environment initializes once. -/
theorem initializeDbModule_contract_witness :
    initializeDbModule (some 7) failingInitEnv = (some 7, .ok (), 0)
    ∧ initializeDbModule none failingInitEnv = (none, .error "wasm abort", 1)
    ∧ initializeDbModule none workingInitEnv = (some 7, .ok (), 1) := by
  have h := initializeDbModule_contract failingInitEnv workingInitEnv 7 7
  exact ⟨h.1, h.2.2.1 "wasm abort" rfl rfl, h.2.2.2.2 [0] rfl rfl rfl⟩

/-- C9 counterexample: two callers that both pass the `dbModule` check
before either completes each invoke `initSqlJs` — the schedule check₀,
check₁, resume₀, resume₁ performs two real initializations, not exactly
one as the claim states. -/
theorem ensureReady_concurrent_double_init :
    (runSchedule (initConcState 2) [0, 1, 0, 1]).realInits = 2
    ∧ ¬ (runSchedule (initConcState 2) [0, 1, 0, 1]).realInits = 1 :=
  ⟨by decide, by decide⟩

/-- C9 amended: callers that overlap the in-flight first initialization
each perform their own real initialization (there is no in-flight guard,
only the bare state-cell check), yet every caller completes and the module
ends up set; a caller arriving after a completed initialization performs
none, so only sequential calls collapse to one initialization. -/
theorem ensureReady_concurrent_behavior :
    ((runSchedule (initConcState 2) [0, 1, 0, 1]).realInits = 2
      ∧ (runSchedule (initConcState 2) [0, 1, 0, 1]).dbModuleSet = true
      ∧ (runSchedule (initConcState 2) [0, 1, 0, 1]).pcs = [.done, .done])
    ∧ ((runSchedule (initConcState 2) [0, 0, 1]).realInits = 1
      ∧ (runSchedule (initConcState 2) [0, 0, 1]).pcs = [.done, .done]) :=
  ⟨⟨by decide, by decide, by decide⟩, by decide, by decide⟩

end TempDash
